import Mathlib

/-!
Verification development for the midi-bassline-generator repository.

The embedding covers the generation core:

* `musical_scales.py` — the scale interval table, the root-note table and
  `MusicalScales.generate_scale`;
* `bassline_generator_core.py` — the rhythm-pattern table, the duration table
  and `BasslineGenerator.generate_bassline`;
* `dice_roller.py` — `DiceRoller.roll_parameters`.

Randomness is made explicit: an `RngState` carries two streams (one of raw
naturals backing each call of the form choice-from-a-sequence or
integer-in-a-range, one of rationals in the unit interval backing each call
producing a uniform float) together with read positions.  Each primitive
consumes one stream entry and advances the corresponding position, so a run of
the generator is a deterministic function of the initial `RngState`.  Python
exceptions become an explicit error type threaded through `Except`; an errored
call also returns the rng state reached at the raise site, which lets us state
that failed calls leave the shared random state untouched.
-/

namespace MidiBassline

/-- Errors of the embedded code: the two ValueError raise sites of
`MusicalScales.generate_scale` (invalid root note, invalid scale type), the
KeyError from the dictionary access `self.rhythm_patterns[genre]`, and the
IndexError a `random.choice` on an empty sequence would raise. -/
inductive Err where
  | invalidRootNote : Err
  | invalidScaleType : Err
  | genreKeyError : Err
  | indexError : Err
deriving DecidableEq, Repr

/-- Scale interval table, from `MusicalScales.__init__` (`self.scales`). -/
def scales : List (String × List Nat) :=
  [("major", [0, 2, 4, 5, 7, 9, 11]),
   ("minor", [0, 2, 3, 5, 7, 8, 10]),
   ("pentatonic_major", [0, 2, 4, 7, 9]),
   ("pentatonic_minor", [0, 3, 5, 7, 10]),
   ("blues", [0, 3, 5, 6, 7, 10]),
   ("dorian", [0, 2, 3, 5, 7, 9, 10]),
   ("phrygian", [0, 1, 3, 5, 7, 8, 10]),
   ("lydian", [0, 2, 4, 6, 7, 9, 11]),
   ("mixolydian", [0, 2, 4, 5, 7, 9, 10]),
   ("locrian", [0, 1, 3, 5, 6, 8, 10]),
   ("harmonic_minor", [0, 2, 3, 5, 7, 8, 11]),
   ("melodic_minor", [0, 2, 3, 5, 7, 9, 11]),
   ("hungarian_minor", [0, 2, 3, 6, 7, 8, 11]),
   ("hirajoshi", [0, 2, 3, 7, 8]),
   ("persian", [0, 1, 4, 5, 6, 8, 11]),
   ("byzantine", [0, 1, 4, 5, 7, 8, 11]),
   ("egyptian", [0, 2, 5, 7, 10]),
   ("whole_tone", [0, 2, 4, 6, 8, 10]),
   ("diminished", [0, 2, 3, 5, 6, 8, 9, 11]),
   ("prometheus", [0, 2, 4, 6, 9, 10]),
   ("enigmatic", [0, 1, 4, 6, 8, 10, 11])]

/-- Root-note table, from `MusicalScales.__init__` (`self.root_notes`). -/
def root_notes : List (String × Nat) :=
  [("C", 36), ("C#", 37), ("Db", 37),
   ("D", 38), ("D#", 39), ("Eb", 39),
   ("E", 40), ("F", 41), ("F#", 42),
   ("Gb", 42), ("G", 43), ("G#", 44),
   ("Ab", 44), ("A", 45), ("A#", 46),
   ("Bb", 46), ("B", 47)]

/-- Embedding of `MusicalScales.generate_scale`: validate the root note, then
the scale type, then emit `root_midi + interval + octave * 12` for each octave
index and each interval, in the nested loop order of the source. -/
def generate_scale (root_note scale_type : String) (octaves : Nat) :
    Except Err (List Nat) :=
  match List.lookup root_note root_notes with
  | none => Except.error Err.invalidRootNote
  | some root_midi =>
    match List.lookup scale_type scales with
    | none => Except.error Err.invalidScaleType
    | some scale_intervals =>
      Except.ok (((List.range octaves).map (fun octave =>
        scale_intervals.map (fun interval =>
          root_midi + interval + octave * 12))).flatten)

/-- Byte-wise comparison of character lists, the order Python's `sorted` uses
on ASCII strings. -/
def charsLe : List Char → List Char → Bool
  | [], _ => true
  | _ :: _, [] => false
  | x :: xs, y :: ys =>
    if x < y then true else if y < x then false else charsLe xs ys

/-- Lexicographic string comparison backing the `sorted(...)` calls. -/
def strLe (a b : String) : Bool := charsLe a.data b.data

/-- Insertion step of the sort modelling Python's `sorted`. -/
def insertStr (x : String) : List String → List String
  | [] => [x]
  | y :: ys => if strLe x y then x :: y :: ys else y :: insertStr x ys

/-- Stable sort modelling Python's `sorted` on a list of strings. -/
def sortStr : List String → List String
  | [] => []
  | x :: xs => insertStr x (sortStr xs)

/-- Embedding of `MusicalScales.get_available_scales`. -/
def get_available_scales : List String := sortStr (scales.map Prod.fst)

/-- Embedding of `MusicalScales.get_available_root_notes`. -/
def get_available_root_notes : List String := sortStr (root_notes.map Prod.fst)

/-- Explicit random state: a stream of raw naturals backing the draws of the
form choice-from-a-sequence or integer-in-a-range, a stream of rationals in
`[0,1)` backing `random.random()`, and the current read position into each. -/
structure RngState where
  choiceStream : Nat → Nat
  floatStream : Nat → Rat
  choicePos : Nat
  floatPos : Nat

/-- Advance the choice stream by one draw. -/
def bumpChoice (s : RngState) : RngState :=
  RngState.mk s.choiceStream s.floatStream (s.choicePos + 1) s.floatPos

/-- Advance the float stream by one draw. -/
def bumpFloat (s : RngState) : RngState :=
  RngState.mk s.choiceStream s.floatStream s.choicePos (s.floatPos + 1)

/-- Embedding of `random.choice`: on a non-empty sequence, return the entry
selected by the next raw draw (reduced modulo the length) and consume the
draw; on an empty sequence, fail like the IndexError raised by
`seq[self._randbelow(0)]`, which consumes no randomness. -/
def randomChoice {α : Type} (l : List α) (s : RngState) : Option α × RngState :=
  if h : l.length = 0 then (none, s)
  else
    (some (l.get ⟨s.choiceStream s.choicePos % l.length,
      Nat.mod_lt _ (Nat.pos_of_ne_zero h)⟩), bumpChoice s)

/-- Embedding of `random.random()`: the next entry of the float stream. -/
def randomFloat (s : RngState) : Rat × RngState :=
  (s.floatStream s.floatPos, bumpFloat s)

/-- Embedding of `random.randint(a, b)`: an integer in `[a, b]`, both ends
included, consuming one raw draw. -/
def randint (a b : Nat) (s : RngState) : Nat × RngState :=
  (a + s.choiceStream s.choicePos % (b - a + 1), bumpChoice s)

/-- Embedding of `random.uniform(a, b)`, which computes
`a + (b - a) * random()`. -/
def uniform (a b : Rat) (s : RngState) : Rat × RngState :=
  match randomFloat s with
  | (r, s1) => (a + (b - a) * r, s1)

/-- Rhythm-pattern table, from `BasslineGenerator.__init__`
(`self.rhythm_patterns`). -/
def rhythm_patterns : List (String × List (List Nat)) :=
  [("Funk",
    [[1, 0, 1, 0, 1, 0, 1, 0, 1, 0, 1, 1, 0, 1, 1, 0],
     [1, 0, 1, 1, 0, 1, 1, 0, 1, 0, 1, 0, 1, 1, 0, 0]]),
   ("Darksynth",
    [[1, 0, 0, 1, 0, 0, 1, 0, 1, 0, 1, 1, 0, 1, 0, 0],
     [1, 0, 1, 0, 1, 1, 0, 0, 1, 0, 0, 1, 1, 0, 1, 0]]),
   ("Pop",
    [[1, 0, 0, 0, 1, 0, 0, 0, 1, 0, 0, 1, 0, 0, 0, 0],
     [1, 0, 0, 1, 0, 0, 1, 0, 0, 1, 0, 0, 1, 0, 0, 0]]),
   ("Trap",
    [[1, 0, 0, 0, 0, 1, 0, 0, 1, 0, 0, 0, 0, 1, 0, 0],
     [1, 0, 0, 0, 1, 0, 0, 1, 0, 0, 1, 0, 0, 0, 0, 0]])]

/-- Duration table, from `BasslineGenerator.__init__` (`self.note_durations`). -/
def note_durations : List Rat := [0.25, 0.5, 0.75, 1.0, 1.5, 2.0]

/-- Embedding of the dictionaries appended to `bassline`: one generated note. -/
structure NoteEvent where
  note : Nat
  position : Nat
  duration : Rat
  velocity : Nat
deriving DecidableEq, Repr

/-- Embedding of `BasslineGenerator.get_available_genres`. -/
def get_available_genres : List String := sortStr (rhythm_patterns.map Prod.fst)

/-- Inner loop of `BasslineGenerator.generate_bassline`, over
`enumerate(pattern)`: at each `1` step, draw `random.random()` and compare it
with the density; on a kept step, take the lower half of the scale (falling
back to the whole scale when that slice is empty), draw the note and the
duration, and emit the note dictionary at `bar * 16 + step`. -/
def processSteps (scale_notes : List Nat) (note_density : Rat) (bar : Nat) :
    List Nat → Nat → RngState → (Except Err (List NoteEvent)) × RngState
  | [], _, s => (Except.ok [], s)
  | hit :: rest, step, s =>
    if hit ≠ 0 then
      match randomFloat s with
      | (r, s1) =>
        if r ≤ note_density then
          match randomChoice
              (if scale_notes.take (scale_notes.length / 2) = [] then
                scale_notes
              else scale_notes.take (scale_notes.length / 2)) s1 with
          | (none, s2) => (Except.error Err.indexError, s2)
          | (some note, s2) =>
            match randomChoice note_durations s2 with
            | (none, s3) => (Except.error Err.indexError, s3)
            | (some duration, s3) =>
              match processSteps scale_notes note_density bar rest (step + 1) s3 with
              | (Except.error e, s4) => (Except.error e, s4)
              | (Except.ok evs, s4) =>
                (Except.ok (NoteEvent.mk note (bar * 16 + step) duration 100 :: evs), s4)
        else
          processSteps scale_notes note_density bar rest (step + 1) s1
    else
      processSteps scale_notes note_density bar rest (step + 1) s

/-- Outer loop of `BasslineGenerator.generate_bassline`, over
`range(num_bars)`: per bar, look the genre up in the rhythm-pattern table
(KeyError when absent, raised before any randomness is consumed), draw one
pattern, and run the step loop. -/
def processBars (genre : String) (scale_notes : List Nat) (note_density : Rat) :
    Nat → Nat → RngState → (Except Err (List NoteEvent)) × RngState
  | 0, _, s => (Except.ok [], s)
  | Nat.succ n, bar, s =>
    match List.lookup genre rhythm_patterns with
    | none => (Except.error Err.genreKeyError, s)
    | some pats =>
      match randomChoice pats s with
      | (none, s1) => (Except.error Err.indexError, s1)
      | (some pattern, s1) =>
        match processSteps scale_notes note_density bar pattern 0 s1 with
        | (Except.error e, s2) => (Except.error e, s2)
        | (Except.ok evs, s2) =>
          match processBars genre scale_notes note_density n (bar + 1) s2 with
          | (Except.error e, s3) => (Except.error e, s3)
          | (Except.ok evs2, s3) => (Except.ok (evs ++ evs2), s3)

/-- Embedding of `BasslineGenerator.generate_bassline`: generate the scale
(two octaves), run the bar loop, and when the result is empty force a single
note drawn from `scale_notes[:len(scale_notes)//2]` at position 0, duration
1.0, velocity 100. -/
def generate_bassline (root_note scale_type genre : String) (num_bars : Nat)
    (note_density : Rat) (s : RngState) :
    (Except Err (List NoteEvent)) × RngState :=
  match generate_scale root_note scale_type 2 with
  | Except.error e => (Except.error e, s)
  | Except.ok scale_notes =>
    match processBars genre scale_notes note_density num_bars 0 s with
    | (Except.error e, s1) => (Except.error e, s1)
    | (Except.ok bassline, s1) =>
      if bassline = [] then
        match randomChoice (scale_notes.take (scale_notes.length / 2)) s1 with
        | (none, s2) => (Except.error Err.indexError, s2)
        | (some note, s2) => (Except.ok [NoteEvent.mk note 0 1.0 100], s2)
      else
        (Except.ok bassline, s1)

/-- Result record of `DiceRoller.roll_parameters`. -/
structure GenerationParameters where
  root_note : String
  scale_type : String
  genre : String
  tempo : Nat
  bars : Nat
  note_density : Rat
deriving DecidableEq, Repr

/-- Python's round-half-to-even on a rational, i.e. the built-in `round` to an
integer. -/
def roundHalfEven (q : Rat) : Int :=
  if q - ⌊q⌋ < 1 / 2 then ⌊q⌋
  else if q - ⌊q⌋ > 1 / 2 then ⌊q⌋ + 1
  else if ⌊q⌋ % 2 = 0 then ⌊q⌋ else ⌊q⌋ + 1

/-- Python's `round(q, 2)`: round half to even at two decimal places. -/
def round2 (q : Rat) : Rat := (roundHalfEven (q * 100) : Rat) / 100

/-- Embedding of `DiceRoller.roll_parameters`: draw the root note from the raw
key list, the scale type and genre from the sorted key lists, the tempo with
`randint(60, 180)`, fix 8 bars, and round a `uniform(0.3, 1.0)` draw to two
decimal places for the density. -/
def roll_parameters (s : RngState) :
    (Except Err GenerationParameters) × RngState :=
  match randomChoice (root_notes.map Prod.fst) s with
  | (none, s1) => (Except.error Err.indexError, s1)
  | (some rn, s1) =>
    match randomChoice get_available_scales s1 with
    | (none, s2) => (Except.error Err.indexError, s2)
    | (some st, s2) =>
      match randomChoice get_available_genres s2 with
      | (none, s3) => (Except.error Err.indexError, s3)
      | (some g, s3) =>
        match randint 60 180 s3 with
        | (t, s4) =>
          match uniform 0.3 1.0 s4 with
          | (u, s5) =>
            (Except.ok (GenerationParameters.mk rn st g t 8 (round2 u)), s5)

/-- An all-zero random state used as a concrete input in witnesses. -/
def zeroRng : RngState := RngState.mk (fun _ => 0) (fun _ => 0) 0 0

/-- A constant-six random state used as a concrete input in counterexamples. -/
def sixRng : RngState := RngState.mk (fun _ => 6) (fun _ => 0) 0 0

/-- A random state whose float draws are all `1/2`, used in witnesses that
need density draws strictly inside the unit interval. -/
def halfRng : RngState := RngState.mk (fun _ => 0) (fun _ => 1 / 2) 0 0

/-- Positions of the nonzero steps of a pattern, starting at a given base
position and stepping by one: the positions the step loop emits notes at when
nothing is probabilistically suppressed. -/
def hitPositions : List Nat → Nat → List Nat
  | [], _ => []
  | hit :: rest, base =>
    if hit ≠ 0 then base :: hitPositions rest (base + 1)
    else hitPositions rest (base + 1)

/-- The templates actually drawn during a run of the bar loop: the same
genre lookup, per-bar template draw and step-loop state evolution as
`processBars`, recording the template each bar's `random.choice` selects.
This names the run's draw trace, so the density-1 count property can be
stated about the templates the rng really chose rather than about some
template list. -/
def drawnTemplates (genre : String) (scale_notes : List Nat)
    (note_density : Rat) : Nat → Nat → RngState → List (List Nat)
  | 0, _, _ => []
  | Nat.succ n, bar, s =>
    match List.lookup genre rhythm_patterns with
    | none => []
    | some pats =>
      match randomChoice pats s with
      | (none, _) => []
      | (some pattern, s1) =>
        match processSteps scale_notes note_density bar pattern 0 s1 with
        | (Except.error _, _) => [pattern]
        | (Except.ok _, s2) =>
          pattern :: drawnTemplates genre scale_notes note_density n (bar + 1) s2

/-! ### Basic lemmas about the rng primitives and the lookup tables -/

lemma bumpChoice_streams (s : RngState) :
    (bumpChoice s).choiceStream = s.choiceStream ∧
      (bumpChoice s).floatStream = s.floatStream := ⟨rfl, rfl⟩

lemma randomChoice_nonempty {α : Type} (l : List α) (s : RngState)
    (h : l.length ≠ 0) :
    randomChoice l s =
      (some (l.get ⟨s.choiceStream s.choicePos % l.length,
        Nat.mod_lt _ (Nat.pos_of_ne_zero h)⟩), bumpChoice s) := by
  simp [randomChoice, h]

lemma randomChoice_some_mem {α : Type} {l : List α} {s : RngState} {a : α}
    {s1 : RngState} (h : randomChoice l s = (some a, s1)) :
    a ∈ l ∧ s1 = bumpChoice s := by
  by_cases hl : l.length = 0
  · simp [randomChoice, hl] at h
  · rw [randomChoice_nonempty l s hl] at h
    obtain ⟨h1, h2⟩ := Prod.mk.injEq .. ▸ h
    injection h1 with h1
    exact ⟨h1 ▸ List.get_mem l _ _, h2.symm⟩

lemma lookup_mem {α : Type} (tbl : List (String × α)) (k : String) (v : α) :
    List.lookup k tbl = some v → v ∈ tbl.map Prod.snd := by
  induction tbl with
  | nil => intro h; simp [List.lookup] at h
  | cons p t ih =>
    obtain ⟨a, b⟩ := p
    intro h
    simp only [List.lookup] at h
    cases hba : (k == a) with
    | true =>
      rw [hba] at h
      injection h with h
      simp [h]
    | false =>
      rw [hba] at h
      simp [ih h]

/-- Every built-in scale definition has at least five offsets. -/
lemma scales_length_ge_five : ∀ v ∈ scales.map Prod.snd, 5 ≤ v.length := by
  decide

/-- Every genre has a non-empty template list, and every template has only
zero or one entries and sixteen steps. -/
lemma patterns_wf : ∀ p ∈ rhythm_patterns.map Prod.snd,
    p.length ≠ 0 ∧ ∀ t ∈ p, t.length = 16 ∧ ∀ x ∈ t, x = 0 ∨ x = 1 := by
  decide

lemma generate_scale_eq (root scale : String) (octaves : Nat) (r : Nat)
    (ivs : List Nat) (hr : List.lookup root root_notes = some r)
    (hs : List.lookup scale scales = some ivs) :
    generate_scale root scale octaves =
      Except.ok (((List.range octaves).map (fun o =>
        ivs.map (fun iv => r + iv + o * 12))).flatten) := by
  simp [generate_scale, hr, hs]

lemma flatten_map_length (g : Nat → List Nat) (L : Nat)
    (hg : ∀ m, (g m).length = L) (n : Nat) :
    (((List.range n).map g).flatten).length = n * L := by
  induction n with
  | zero => simp
  | succ k ih =>
    rw [List.range_succ, List.map_append, List.flatten_append]
    simp only [List.length_append, ih, List.map_cons, List.map_nil,
      List.flatten_cons, List.flatten_nil, List.append_nil, hg, Nat.succ_mul]

lemma flatten_map_getElem (g : Nat → List Nat) (L : Nat)
    (hg : ∀ m, (g m).length = L) (n o i : Nat) (ho : o < n) (hi : i < L) :
    (((List.range n).map g).flatten)[o * L + i]? = (g o)[i]? := by
  induction n with
  | zero => omega
  | succ k ih =>
    rw [List.range_succ, List.map_append, List.flatten_append]
    rcases Nat.lt_succ_iff_lt_or_eq.mp ho with h | h
    · rw [List.getElem?_append_left]
      · exact ih h
      · rw [flatten_map_length g L hg]
        calc o * L + i < o * L + L := Nat.add_lt_add_left hi _
          _ = (o + 1) * L := (Nat.succ_mul o L).symm
          _ ≤ k * L := Nat.mul_le_mul_right L h
    · subst h
      rw [List.getElem?_append_right]
      · rw [flatten_map_length g L hg, Nat.add_sub_cancel_left]
        simp
      · rw [flatten_map_length g L hg]
        exact Nat.le_add_right _ _

lemma generate_scale_length (root scale : String) (octaves : Nat) (r : Nat)
    (ivs : List Nat) (hr : List.lookup root root_notes = some r)
    (hs : List.lookup scale scales = some ivs) (notes : List Nat)
    (hn : generate_scale root scale octaves = Except.ok notes) :
    notes.length = octaves * ivs.length := by
  rw [generate_scale_eq root scale octaves r ivs hr hs] at hn
  injection hn with hn
  rw [← hn, flatten_map_length]
  intro m
  simp

/-- For every valid root and scale, the lower half taken by the generator from
the two-octave scale has exactly as many entries as the scale definition has
offsets, hence at least five. -/
lemma lower_half_length (root scale : String) (r : Nat) (ivs : List Nat)
    (hr : List.lookup root root_notes = some r)
    (hs : List.lookup scale scales = some ivs) (notes : List Nat)
    (hn : generate_scale root scale 2 = Except.ok notes) :
    (notes.take (notes.length / 2)).length = ivs.length ∧
      5 ≤ (notes.take (notes.length / 2)).length := by
  have hlen := generate_scale_length root scale 2 r ivs hr hs notes hn
  have h5 : 5 ≤ ivs.length :=
    scales_length_ge_five ivs (lookup_mem scales scale ivs hs)
  have hdiv : notes.length / 2 = ivs.length := by omega
  have htake : (notes.take (notes.length / 2)).length = ivs.length := by
    rw [List.length_take, hdiv, hlen]
    omega
  exact ⟨htake, htake ▸ h5⟩

lemma lower_half_ne_nil (root scale : String) (r : Nat) (ivs : List Nat)
    (hr : List.lookup root root_notes = some r)
    (hs : List.lookup scale scales = some ivs) (notes : List Nat)
    (hn : generate_scale root scale 2 = Except.ok notes) :
    notes.take (notes.length / 2) ≠ [] := by
  intro hcon
  have := (lower_half_length root scale r ivs hr hs notes hn).2
  rw [hcon] at this
  simp at this

/-! ### Claim C6: shape of `generate_scale` -/

/-- C6: for every valid root note, scale type and octave count,
`generate_scale` returns exactly `octaves * len(offsets)` entries, the entry
for octave index `o` and offset index `i` being
`rootPitch + offset_i + 12 * o`, emitted octave-major in definition order with
no deduplication or re-sorting. -/
theorem generate_scale_entries (root scale : String) (octaves : Nat) (r : Nat)
    (ivs : List Nat) (hr : List.lookup root root_notes = some r)
    (hs : List.lookup scale scales = some ivs) :
    ∃ notes, generate_scale root scale octaves = Except.ok notes ∧
      notes.length = octaves * ivs.length ∧
      ∀ (o i : Nat) (ho : o < octaves) (hi : i < ivs.length),
        notes[o * ivs.length + i]? = some (r + ivs[i] + o * 12) := by
  refine ⟨_, generate_scale_eq root scale octaves r ivs hr hs, ?_, ?_⟩
  · rw [flatten_map_length]
    intro m
    simp
  · intro o i ho hi
    rw [flatten_map_getElem _ ivs.length (fun m => by simp) octaves o i ho hi]
    simp [List.getElem?_map, List.getElem?_eq_getElem hi]

/-- Witness for C6 at root C, scale major, two octaves. -/
theorem generate_scale_entries_witness :
    ∃ notes, generate_scale "C" "major" 2 = Except.ok notes ∧
      notes.length = 2 * [0, 2, 4, 5, 7, 9, 11].length ∧
      ∀ (o i : Nat) (ho : o < 2) (hi : i < [0, 2, 4, 5, 7, 9, 11].length),
        notes[o * [0, 2, 4, 5, 7, 9, 11].length + i]? =
          some (36 + [0, 2, 4, 5, 7, 9, 11][i] + o * 12) :=
  generate_scale_entries "C" "major" 2 36 [0, 2, 4, 5, 7, 9, 11]
    (by decide) (by decide)

/-! ### Claim C7: enharmonic aliases -/

/-- C7: each enharmonic alias pair resolves to the identical integer MIDI
pitch value in the root-note table. -/
theorem enharmonic_aliases :
    List.lookup "C#" root_notes = some 37 ∧
      List.lookup "Db" root_notes = some 37 ∧
      List.lookup "D#" root_notes = some 39 ∧
      List.lookup "Eb" root_notes = some 39 ∧
      List.lookup "F#" root_notes = some 42 ∧
      List.lookup "Gb" root_notes = some 42 ∧
      List.lookup "G#" root_notes = some 44 ∧
      List.lookup "Ab" root_notes = some 44 ∧
      List.lookup "A#" root_notes = some 46 ∧
      List.lookup "Bb" root_notes = some 46 := by
  decide

/-! ### The step loop -/

lemma hitPositions_cons (hit : Nat) (rest : List Nat) (base : Nat) :
    hitPositions (hit :: rest) base =
      if hit ≠ 0 then base :: hitPositions rest (base + 1)
      else hitPositions rest (base + 1) := rfl

lemma note_durations_length_ne_zero : note_durations.length ≠ 0 := by
  simp [note_durations]

/-- Master lemma for the inner step loop: it always succeeds when the lower
half of the scale is non-empty, preserves the rng streams, emits only notes
from the lower half with durations from the duration table and velocity 100;
with density 1 and unit-interval float draws it emits exactly at the nonzero
pattern steps, and with density 0 and strictly positive float draws it emits
nothing. -/
lemma processSteps_spec (scale_notes : List Nat) (density : Rat) (bar : Nat)
    (hlow : scale_notes.take (scale_notes.length / 2) ≠ []) :
    ∀ (pattern : List Nat) (i : Nat) (s : RngState),
      ∃ evs s1,
        processSteps scale_notes density bar pattern i s = (Except.ok evs, s1) ∧
        s1.choiceStream = s.choiceStream ∧ s1.floatStream = s.floatStream ∧
        (∀ ev ∈ evs, ev.note ∈ scale_notes.take (scale_notes.length / 2) ∧
          ev.duration ∈ note_durations ∧ ev.velocity = 100) ∧
        (density = 1 → (∀ n, s.floatStream n ≤ 1) →
          evs.map NoteEvent.position = hitPositions pattern (bar * 16 + i)) ∧
        (density = 0 → (∀ n, 0 < s.floatStream n) → evs = []) := by
  intro pattern
  induction pattern with
  | nil =>
    intro i s
    exact ⟨[], s, rfl, rfl, rfl, by simp, fun _ _ => rfl, fun _ _ => rfl⟩
  | cons hit rest ih =>
    intro i s
    by_cases hh : hit ≠ 0
    · obtain ⟨evs0, s9, heq, hcs, hfs, hmem, hpos, hzero⟩ :=
        ih (i + 1) (bumpChoice (bumpChoice (bumpFloat s)))
      obtain ⟨evs1, s8, heq1, hcs1, hfs1, hmem1, hpos1, hzero1⟩ :=
        ih (i + 1) (bumpFloat s)
      by_cases hr : s.floatStream s.floatPos ≤ density
      · -- the density draw keeps the step
        have hL : (scale_notes.take (scale_notes.length / 2)).length ≠ 0 :=
          fun hc => hlow (List.length_eq_zero.mp hc)
        refine ⟨NoteEvent.mk
            ((scale_notes.take (scale_notes.length / 2)).get
              ⟨(bumpFloat s).choiceStream (bumpFloat s).choicePos %
                  (scale_notes.take (scale_notes.length / 2)).length,
                Nat.mod_lt _ (Nat.pos_of_ne_zero hL)⟩)
            (bar * 16 + i)
            (note_durations.get
              ⟨(bumpChoice (bumpFloat s)).choiceStream
                  (bumpChoice (bumpFloat s)).choicePos % note_durations.length,
                Nat.mod_lt _ (Nat.pos_of_ne_zero note_durations_length_ne_zero)⟩)
            100 :: evs0, s9, ?_, hcs, hfs, ?_, ?_, ?_⟩
        · have e1 : randomChoice (scale_notes.take (scale_notes.length / 2))
              (bumpFloat s) =
              (some ((scale_notes.take (scale_notes.length / 2)).get
                ⟨(bumpFloat s).choiceStream (bumpFloat s).choicePos %
                    (scale_notes.take (scale_notes.length / 2)).length,
                  Nat.mod_lt _ (Nat.pos_of_ne_zero hL)⟩),
                bumpChoice (bumpFloat s)) :=
            randomChoice_nonempty _ _ hL
          have e2 : randomChoice note_durations (bumpChoice (bumpFloat s)) =
              (some (note_durations.get
                ⟨(bumpChoice (bumpFloat s)).choiceStream
                    (bumpChoice (bumpFloat s)).choicePos % note_durations.length,
                  Nat.mod_lt _
                    (Nat.pos_of_ne_zero note_durations_length_ne_zero)⟩),
                bumpChoice (bumpChoice (bumpFloat s))) :=
            randomChoice_nonempty note_durations _ note_durations_length_ne_zero
          simp only [processSteps, randomFloat]
          rw [if_pos hh, if_pos hr, if_neg hlow]
          simp only [e1, e2, heq]
        · intro ev hev
          rcases List.mem_cons.mp hev with hev | hev
          · subst hev
            exact ⟨List.get_mem _ _ _, List.get_mem _ _ _, rfl⟩
          · exact hmem ev hev
        · intro h1 hfl
          have harith : bar * 16 + (i + 1) = bar * 16 + i + 1 := by omega
          rw [List.map_cons, hpos h1 hfl, hitPositions_cons, if_pos hh, harith]
        · intro h0 hfl
          exact absurd hr (by rw [h0]; exact not_le.mpr (hfl s.floatPos))
      · -- the density draw suppresses the step
        refine ⟨evs1, s8, ?_, hcs1, hfs1, hmem1, ?_, ?_⟩
        · simp only [processSteps, if_pos hh, randomFloat]
          rw [if_neg hr]
          exact heq1
        · intro h1 hfl
          exact absurd (h1 ▸ hfl s.floatPos) hr
        · intro h0 hfl
          have harith : bar * 16 + (i + 1) = bar * 16 + i + 1 := by omega
          exact hzero1 h0 hfl
    · obtain ⟨evs0, s9, heq, hcs, hfs, hmem, hpos, hzero⟩ := ih (i + 1) s
      refine ⟨evs0, s9, ?_, hcs, hfs, hmem, ?_, hzero⟩
      · simp only [processSteps, if_neg hh]
        exact heq
      · intro h1 hfl
        have harith : bar * 16 + (i + 1) = bar * 16 + i + 1 := by omega
        rw [hpos h1 hfl, hitPositions_cons, if_neg hh, harith]

/-! ### The bar loop -/

lemma hitPositions_length_count (p : List Nat)
    (h01 : ∀ x ∈ p, x = 0 ∨ x = 1) :
    ∀ b, (hitPositions p b).length = List.count 1 p := by
  induction p with
  | nil => intro b; rfl
  | cons hit rest ih =>
    intro b
    have hrest : ∀ x ∈ rest, x = 0 ∨ x = 1 :=
      fun x hx => h01 x (List.mem_cons_of_mem _ hx)
    rcases h01 hit (List.mem_cons_self _ _) with h | h
    · subst h
      rw [hitPositions_cons, if_neg (by simp)]
      rw [ih hrest]
      simp [List.count_cons]
    · subst h
      rw [hitPositions_cons, if_pos (by simp)]
      simp [ih hrest (b + 1), List.count_cons]

/-- Master lemma for the bar loop: with a valid genre and a non-empty lower
half it always succeeds, emits only lower-half notes with table durations and
velocity 100; with density 1 and unit-interval float draws the note count is
the total count of 1-steps over the drawn templates; with density 0 and
strictly positive float draws it emits nothing. -/
lemma processBars_spec (genre : String) (pats : List (List Nat))
    (scale_notes : List Nat) (density : Rat)
    (hg : List.lookup genre rhythm_patterns = some pats)
    (hlow : scale_notes.take (scale_notes.length / 2) ≠ []) :
    ∀ (rem bar : Nat) (s : RngState),
      ∃ evs s1,
        processBars genre scale_notes density rem bar s = (Except.ok evs, s1) ∧
        s1.choiceStream = s.choiceStream ∧ s1.floatStream = s.floatStream ∧
        (∀ ev ∈ evs, ev.note ∈ scale_notes.take (scale_notes.length / 2) ∧
          ev.duration ∈ note_durations ∧ ev.velocity = 100) ∧
        (density = 1 → (∀ n, s.floatStream n ≤ 1) →
          (drawnTemplates genre scale_notes density rem bar s).length = rem ∧
          (∀ t ∈ drawnTemplates genre scale_notes density rem bar s,
            t ∈ pats) ∧
          evs.length = ((drawnTemplates genre scale_notes density rem bar s).map
            (fun t => List.count 1 t)).sum) ∧
        (density = 0 → (∀ n, 0 < s.floatStream n) → evs = []) := by
  have hwf := patterns_wf pats (lookup_mem rhythm_patterns genre pats hg)
  intro rem
  induction rem with
  | zero =>
    intro bar s
    exact ⟨[], s, rfl, rfl, rfl, by simp,
      fun _ _ => ⟨rfl, by simp [drawnTemplates], rfl⟩, fun _ _ => rfl⟩
  | succ n ih =>
    intro bar s
    have hpL : pats.length ≠ 0 := hwf.1
    have e1 : randomChoice pats s =
        (some (pats.get ⟨s.choiceStream s.choicePos % pats.length,
          Nat.mod_lt _ (Nat.pos_of_ne_zero hpL)⟩), bumpChoice s) :=
      randomChoice_nonempty pats s hpL
    obtain ⟨evsS, s2, heqS, hcsS, hfsS, hmemS, hposS, hzeroS⟩ :=
      processSteps_spec scale_notes density bar hlow
        (pats.get ⟨s.choiceStream s.choicePos % pats.length,
          Nat.mod_lt _ (Nat.pos_of_ne_zero hpL)⟩) 0 (bumpChoice s)
    obtain ⟨evsB, s3, heqB, hcsB, hfsB, hmemB, hcntB, hzeroB⟩ := ih (bar + 1) s2
    refine ⟨evsS ++ evsB, s3, ?_, ?_, ?_, ?_, ?_, ?_⟩
    · simp only [processBars, hg, e1, heqS, heqB]
    · exact hcsB.trans hcsS
    · exact hfsB.trans hfsS
    · intro ev hev
      rcases List.mem_append.mp hev with hev | hev
      · exact hmemS ev hev
      · exact hmemB ev hev
    · intro h1 hfl
      have hflS : ∀ n, (bumpChoice s).floatStream n ≤ 1 := hfl
      have hflB : ∀ n, s2.floatStream n ≤ 1 := by
        intro n
        rw [hfsS]
        exact hfl n
      obtain ⟨htL, htM, htC⟩ := hcntB h1 hflB
      have hpat01 : ∀ x ∈ pats.get ⟨s.choiceStream s.choicePos % pats.length,
          Nat.mod_lt _ (Nat.pos_of_ne_zero hpL)⟩, x = 0 ∨ x = 1 :=
        (hwf.2 _ (List.get_mem pats _ _)).2
      have hlenS : evsS.length = List.count 1
          (pats.get ⟨s.choiceStream s.choicePos % pats.length,
            Nat.mod_lt _ (Nat.pos_of_ne_zero hpL)⟩) := by
        have := congrArg List.length (hposS h1 hflS)
        rw [List.length_map, hitPositions_length_count _ hpat01] at this
        exact this
      have hdt : drawnTemplates genre scale_notes density (n + 1) bar s =
          pats.get ⟨s.choiceStream s.choicePos % pats.length,
            Nat.mod_lt _ (Nat.pos_of_ne_zero hpL)⟩ ::
            drawnTemplates genre scale_notes density n (bar + 1) s2 := by
        simp only [drawnTemplates, hg, e1, heqS]
      rw [hdt]
      refine ⟨by simp [htL], ?_, ?_⟩
      · intro t ht
        rcases List.mem_cons.mp ht with ht | ht
        · exact ht ▸ List.get_mem pats _ _
        · exact htM t ht
      · simp [List.length_append, hlenS, htC]
    · intro h0 hfl
      have hflS : ∀ n, 0 < (bumpChoice s).floatStream n := hfl
      have hflB : ∀ n, 0 < s2.floatStream n := by
        intro n
        rw [hfsS]
        exact hfl n
      rw [hzeroS h0 hflS, hzeroB h0 hflB]
      rfl

/-! ### The full generator -/

/-- Master lemma for `generate_bassline` on valid enumeration inputs: it
succeeds for every bar count and density, the result is non-empty, every
event's pitch lies in the lower half of the generated scale with a
table duration and velocity 100, and with density 0 and strictly positive
float draws the result is exactly the single fallback note. -/
lemma generate_bassline_spec (root scale genre : String) (r : Nat)
    (ivs : List Nat) (pats : List (List Nat))
    (hr : List.lookup root root_notes = some r)
    (hs : List.lookup scale scales = some ivs)
    (hg : List.lookup genre rhythm_patterns = some pats)
    (bars : Nat) (density : Rat) (s : RngState) :
    ∃ notes evs s1,
      generate_scale root scale 2 = Except.ok notes ∧
      generate_bassline root scale genre bars density s = (Except.ok evs, s1) ∧
      evs ≠ [] ∧
      (∀ ev ∈ evs, ev.note ∈ notes.take (notes.length / 2) ∧
        ev.duration ∈ note_durations ∧ ev.velocity = 100) ∧
      (density = 0 → (∀ n, 0 < s.floatStream n) →
        ∃ nt, nt ∈ notes.take (notes.length / 2) ∧
          evs = [NoteEvent.mk nt 0 1.0 100]) := by
  obtain ⟨notes, hnotes⟩ : ∃ notes, generate_scale root scale 2 = Except.ok notes :=
    ⟨_, generate_scale_eq root scale 2 r ivs hr hs⟩
  have hlow := lower_half_ne_nil root scale r ivs hr hs notes hnotes
  have hL : (notes.take (notes.length / 2)).length ≠ 0 :=
    fun hc => hlow (List.length_eq_zero.mp hc)
  obtain ⟨evsB, s1, heqB, hcsB, hfsB, hmemB, hcntB, hzeroB⟩ :=
    processBars_spec genre pats notes density hg hlow bars 0 s
  by_cases hB : evsB = []
  · subst hB
    rcases hrc : randomChoice (notes.take (notes.length / 2)) s1 with ⟨o, s2⟩
    cases o with
    | none =>
      exfalso
      rw [randomChoice_nonempty _ _ hL] at hrc
      exact Option.noConfusion (congrArg Prod.fst hrc)
    | some nt =>
      have hmem := (randomChoice_some_mem hrc).1
      refine ⟨notes, [NoteEvent.mk nt 0 1.0 100], s2, hnotes, ?_, by simp, ?_, ?_⟩
      · simp only [generate_bassline, hnotes, heqB]
        rw [if_pos trivial, hrc]
      · intro ev hev
        rcases List.mem_singleton.mp hev with rfl
        refine ⟨hmem, ?_, rfl⟩
        norm_num [note_durations]
      · intro _ _
        exact ⟨nt, hmem, rfl⟩
  · refine ⟨notes, evsB, s1, hnotes, ?_, hB, hmemB, ?_⟩
    · simp only [generate_bassline, hnotes, heqB]
      rw [if_neg hB]
    · intro h0 hfl
      exact absurd (hzeroB h0 hfl) hB

/-! ### Claim C1 (amended): non-empty output, and the density-0 fallback -/

/-- C1 (amended): for every valid root note, scale type and genre and every
bar count and density, `generate_bassline` returns a non-empty event
sequence; and when the density is 0 and every float draw is strictly
positive, the result is exactly one fallback note at position 0, duration
1.0, velocity 100, whose pitch comes from the lower half of the generated
two-octave scale. -/
theorem generate_nonempty_and_density_zero_fallback (root scale genre : String)
    (bars : Nat) (density : Rat) (s : RngState)
    (hr : (List.lookup root root_notes).isSome = true)
    (hs : (List.lookup scale scales).isSome = true)
    (hg : (List.lookup genre rhythm_patterns).isSome = true) :
    (∃ evs s1, generate_bassline root scale genre bars density s =
        (Except.ok evs, s1) ∧ evs ≠ []) ∧
    (density = 0 → (∀ n, 0 < s.floatStream n) →
      ∃ notes nt s1, generate_scale root scale 2 = Except.ok notes ∧
        nt ∈ notes.take (notes.length / 2) ∧
        generate_bassline root scale genre bars density s =
          (Except.ok [NoteEvent.mk nt 0 1.0 100], s1)) := by
  obtain ⟨r, hr⟩ := Option.isSome_iff_exists.mp hr
  obtain ⟨ivs, hs⟩ := Option.isSome_iff_exists.mp hs
  obtain ⟨pats, hg⟩ := Option.isSome_iff_exists.mp hg
  obtain ⟨notes, evs, s1, hnotes, heq, hne, _, hfb⟩ :=
    generate_bassline_spec root scale genre r ivs pats hr hs hg bars density s
  refine ⟨⟨evs, s1, heq, hne⟩, ?_⟩
  intro h0 hfl
  obtain ⟨nt, hmem, hevs⟩ := hfb h0 hfl
  exact ⟨notes, nt, s1, hnotes, hmem, hevs ▸ heq⟩

/-- Witness for C1 at `("C", "major", "Funk")`, 4 bars, density 0, with all
float draws equal to 1/2. -/
theorem generate_nonempty_and_density_zero_fallback_witness :
    (∃ evs s1, generate_bassline "C" "major" "Funk" 4 0 halfRng =
        (Except.ok evs, s1) ∧ evs ≠ []) ∧
    ((0 : Rat) = 0 → (∀ n, 0 < halfRng.floatStream n) →
      ∃ notes nt s1, generate_scale "C" "major" 2 = Except.ok notes ∧
        nt ∈ notes.take (notes.length / 2) ∧
        generate_bassline "C" "major" "Funk" 4 0 halfRng =
          (Except.ok [NoteEvent.mk nt 0 1.0 100], s1)) :=
  generate_nonempty_and_density_zero_fallback "C" "major" "Funk" 4 0 halfRng
    (by decide) (by decide) (by decide)

/-- Counterexample to C1 as stated: with density 0 and a random source whose
float draws are all exactly 0 (a value `random.random()` can return), the
`random.random() <= note_density` test keeps every onset, so the call emits
36 main-loop notes rather than exactly one fallback note. -/
theorem density_zero_counterexample :
    Except.map List.length (generate_bassline "C" "major" "Funk" 4 0 zeroRng).1 =
      Except.ok 36 := by
  rfl

/-! ### Claim C2: fields of every emitted note -/

/-- C2: for every valid input, every returned NoteEvent has a pitch in the
lower half (first `floor(n/2)` entries) of the generated two-octave scale, a
duration from the fixed set, and velocity 100 (hence within 0..127). -/
theorem generate_event_fields (root scale genre : String) (bars : Nat)
    (density : Rat) (s : RngState)
    (hr : (List.lookup root root_notes).isSome = true)
    (hs : (List.lookup scale scales).isSome = true)
    (hg : (List.lookup genre rhythm_patterns).isSome = true) :
    ∀ evs s1, generate_bassline root scale genre bars density s =
        (Except.ok evs, s1) →
      ∀ ev ∈ evs,
        (∀ notes, generate_scale root scale 2 = Except.ok notes →
          ev.note ∈ notes.take (notes.length / 2)) ∧
        ev.duration ∈ ([0.25, 0.5, 0.75, 1.0, 1.5, 2.0] : List Rat) ∧
        ev.velocity = 100 ∧ ev.velocity ≤ 127 := by
  obtain ⟨r, hr⟩ := Option.isSome_iff_exists.mp hr
  obtain ⟨ivs, hs⟩ := Option.isSome_iff_exists.mp hs
  obtain ⟨pats, hg⟩ := Option.isSome_iff_exists.mp hg
  obtain ⟨notes, evs0, s0, hnotes, heq0, _, hmem0, _⟩ :=
    generate_bassline_spec root scale genre r ivs pats hr hs hg bars density s
  intro evs s1 heq ev hev
  have hpair : (Except.ok evs0 : Except Err (List NoteEvent)) = Except.ok evs := by
    have := heq0.symm.trans heq
    exact congrArg Prod.fst this
  injection hpair with hevs0
  subst hevs0
  obtain ⟨h1, h2, h3⟩ := hmem0 ev hev
  refine ⟨?_, h2, h3, by omega⟩
  intro notes2 hnotes2
  have : (Except.ok notes : Except Err (List Nat)) = Except.ok notes2 :=
    hnotes.symm.trans hnotes2
  injection this with hn
  exact hn ▸ h1

/-- Witness for C2: the first note of the concrete run at
`("C", "major", "Funk")`, 1 bar, density 1, all-zero random source. -/
theorem generate_event_fields_witness :
    (∀ notes, generate_scale "C" "major" 2 = Except.ok notes →
      (NoteEvent.mk 36 0 0.25 100).note ∈ notes.take (notes.length / 2)) ∧
    (NoteEvent.mk 36 0 0.25 100).duration ∈
      ([0.25, 0.5, 0.75, 1.0, 1.5, 2.0] : List Rat) ∧
    (NoteEvent.mk 36 0 0.25 100).velocity = 100 ∧
    (NoteEvent.mk 36 0 0.25 100).velocity ≤ 127 :=
  generate_event_fields "C" "major" "Funk" 1 1 zeroRng
    (by decide) (by decide) (by decide)
    [NoteEvent.mk 36 0 0.25 100, NoteEvent.mk 36 2 0.25 100,
     NoteEvent.mk 36 4 0.25 100, NoteEvent.mk 36 6 0.25 100,
     NoteEvent.mk 36 8 0.25 100, NoteEvent.mk 36 10 0.25 100,
     NoteEvent.mk 36 11 0.25 100, NoteEvent.mk 36 13 0.25 100,
     NoteEvent.mk 36 14 0.25 100]
    (RngState.mk (fun _ => 0) (fun _ => 0) 19 9)
    (by rfl) (NoteEvent.mk 36 0 0.25 100) (List.mem_cons_self _ _)

/-! ### Claim C4 (amended): the core performs no numeric range validation -/

/-- Counterexample to C4 as stated: a call with a bar count of 0 and a
density of 2, both outside the claimed accepted ranges, is not rejected with
any error: it succeeds and returns the single fallback note. -/
theorem no_range_validation_counterexample :
    (generate_bassline "C" "major" "Funk" 0 2 zeroRng).1 =
      Except.ok [NoteEvent.mk 36 0 1.0 100] := by
  rfl

/-- C4 (amended): the core `generate_bassline` performs no numeric range
validation at all: for every valid root/scale/genre it succeeds for every bar
count and every density, including out-of-range values; range checking is
left to callers. -/
theorem generate_accepts_any_range (root scale genre : String)
    (bars : Nat) (density : Rat) (s : RngState)
    (hr : (List.lookup root root_notes).isSome = true)
    (hs : (List.lookup scale scales).isSome = true)
    (hg : (List.lookup genre rhythm_patterns).isSome = true) :
    ((generate_bassline root scale genre bars density s).1).isOk = true := by
  obtain ⟨r, hr⟩ := Option.isSome_iff_exists.mp hr
  obtain ⟨ivs, hs⟩ := Option.isSome_iff_exists.mp hs
  obtain ⟨pats, hg⟩ := Option.isSome_iff_exists.mp hg
  obtain ⟨notes, evs, s1, _, heq, _, _, _⟩ :=
    generate_bassline_spec root scale genre r ivs pats hr hs hg bars density s
  rw [heq]
  rfl

/-- Witness for C4 (amended) at bar count 0 and density 2. -/
theorem generate_accepts_any_range_witness :
    ((generate_bassline "C" "major" "Funk" 0 2 zeroRng).1).isOk = true :=
  generate_accepts_any_range "C" "major" "Funk" 0 2 zeroRng
    (by decide) (by decide) (by decide)


/-! ### Claim C5: unknown enumeration inputs fail fast without consuming rng -/

/-- C5: an unrecognized root note, scale type, or genre makes
`generate_bassline` fail with the corresponding distinct error (the two
ValueError sites of `generate_scale`, and the KeyError from the
rhythm-pattern dictionary access, reached on the first bar), before any note
is produced and with the random state returned exactly as it was passed in. -/
theorem generate_invalid_lookup (root scale genre : String) (bars : Nat)
    (density : Rat) (s : RngState) (hbars : 1 <= bars) :
    (List.lookup root root_notes = none ->
      generate_bassline root scale genre bars density s =
        (Except.error Err.invalidRootNote, s)) /\
    ((List.lookup root root_notes).isSome = true ->
      List.lookup scale scales = none ->
      generate_bassline root scale genre bars density s =
        (Except.error Err.invalidScaleType, s)) /\
    ((List.lookup root root_notes).isSome = true ->
      (List.lookup scale scales).isSome = true ->
      List.lookup genre rhythm_patterns = none ->
      generate_bassline root scale genre bars density s =
        (Except.error Err.genreKeyError, s)) := by
  refine ⟨?_, ?_, ?_⟩
  · intro h
    simp [generate_bassline, generate_scale, h]
  · intro hr h
    obtain ⟨r, hr⟩ := Option.isSome_iff_exists.mp hr
    simp [generate_bassline, generate_scale, hr, h]
  · intro hr hsc h
    obtain ⟨r, hr⟩ := Option.isSome_iff_exists.mp hr
    obtain ⟨ivs, hsc⟩ := Option.isSome_iff_exists.mp hsc
    obtain ⟨m, rfl⟩ : ∃ m, bars = m + 1 := ⟨bars - 1, by omega⟩
    simp [generate_bassline, generate_scale, hr, hsc, processBars, h]

/-- Witness for C5 at the unknown names "H", "nope", "Jazz" with one bar. -/
theorem generate_invalid_lookup_witness :
    (List.lookup "H" root_notes = none ->
      generate_bassline "H" "nope" "Jazz" 1 (1 : Rat) zeroRng =
        (Except.error Err.invalidRootNote, zeroRng)) /\
    ((List.lookup "H" root_notes).isSome = true ->
      List.lookup "nope" scales = none ->
      generate_bassline "H" "nope" "Jazz" 1 (1 : Rat) zeroRng =
        (Except.error Err.invalidScaleType, zeroRng)) /\
    ((List.lookup "H" root_notes).isSome = true ->
      (List.lookup "nope" scales).isSome = true ->
      List.lookup "Jazz" rhythm_patterns = none ->
      generate_bassline "H" "nope" "Jazz" 1 (1 : Rat) zeroRng =
        (Except.error Err.genreKeyError, zeroRng)) :=
  generate_invalid_lookup "H" "nope" "Jazz" 1 1 zeroRng (by decide)

/-! ### Claim C8: with density 1 the note count is the template 1-count -/

/-- C8: with density 1 (and float draws in the unit interval), the number of
events emitted by the bar loop — before the empty-fallback check — equals
the total number of 1-valued steps across the `bars` templates actually
drawn during the run (`drawnTemplates`, the bar loop's own draw trace), so
the count is determined by the rng's template choices alone. -/
theorem density_one_note_count (root scale genre : String) (r : Nat)
    (ivs : List Nat) (pats : List (List Nat)) (bars : Nat) (s : RngState)
    (notes : List Nat)
    (hr : List.lookup root root_notes = some r)
    (hs : List.lookup scale scales = some ivs)
    (hg : List.lookup genre rhythm_patterns = some pats)
    (hnotes : generate_scale root scale 2 = Except.ok notes)
    (hfl : ∀ n, s.floatStream n <= 1) :
    ∃ (evs : List NoteEvent) (s1 : RngState),
      processBars genre notes 1 bars 0 s = (Except.ok evs, s1) /\
      (drawnTemplates genre notes 1 bars 0 s).length = bars /\
      (∀ t ∈ drawnTemplates genre notes 1 bars 0 s, t ∈ pats) /\
      evs.length = ((drawnTemplates genre notes 1 bars 0 s).map
        (fun t => List.count 1 t)).sum := by
  have hlow := lower_half_ne_nil root scale r ivs hr hs notes hnotes
  obtain ⟨evs, s1, heq, _, _, _, hcnt, _⟩ :=
    processBars_spec genre pats notes 1 hg hlow bars 0 s
  obtain ⟨h1, h2, h3⟩ := hcnt rfl hfl
  exact ⟨evs, s1, heq, h1, h2, h3⟩

/-- Witness for C8 at `("C", "major", "Funk")`, two bars, all-zero source. -/
theorem density_one_note_count_witness :
    ∃ (evs : List NoteEvent) (s1 : RngState),
      processBars "Funk" [36, 38, 40, 41, 43, 45, 47, 48, 50, 52, 53, 55, 57, 59]
          1 2 0 zeroRng = (Except.ok evs, s1) /\
      (drawnTemplates "Funk" [36, 38, 40, 41, 43, 45, 47, 48, 50, 52, 53, 55, 57, 59]
        1 2 0 zeroRng).length = 2 /\
      (∀ t ∈ drawnTemplates "Funk" [36, 38, 40, 41, 43, 45, 47, 48, 50, 52, 53, 55, 57, 59]
          1 2 0 zeroRng,
        t ∈ [[1, 0, 1, 0, 1, 0, 1, 0, 1, 0, 1, 1, 0, 1, 1, 0],
          [1, 0, 1, 1, 0, 1, 1, 0, 1, 0, 1, 0, 1, 1, 0, 0]]) /\
      evs.length = ((drawnTemplates "Funk" [36, 38, 40, 41, 43, 45, 47, 48, 50, 52, 53, 55, 57, 59]
          1 2 0 zeroRng).map
        (fun t => List.count 1 t)).sum :=
  density_one_note_count "C" "major" "Funk" 36 [0, 2, 4, 5, 7, 9, 11]
    [[1, 0, 1, 0, 1, 0, 1, 0, 1, 0, 1, 1, 0, 1, 1, 0],
     [1, 0, 1, 1, 0, 1, 1, 0, 1, 0, 1, 0, 1, 1, 0, 0]] 2 zeroRng
    [36, 38, 40, 41, 43, 45, 47, 48, 50, 52, 53, 55, 57, 59]
    (by decide) (by decide) (by decide) rfl
    (fun n => by norm_num [zeroRng])

/-! ### Claim C10: the fallback slice is always non-empty -/

/-- C10: for every valid root note and scale type, the built-in scale
definition has at least 5 offsets, so the slice
`scale_notes[:len(scale_notes)//2]` drawn from in the empty-bassline
fallback has at least 5 entries, and `random.choice` on it always succeeds
even though that call site lacks the empty-lower-half guard of the main
loop. -/
theorem fallback_choice_safe (root scale : String) (r : Nat) (ivs : List Nat)
    (notes : List Nat)
    (hr : List.lookup root root_notes = some r)
    (hs : List.lookup scale scales = some ivs)
    (hnotes : generate_scale root scale 2 = Except.ok notes) :
    5 <= ivs.length /\
    5 <= (notes.take (notes.length / 2)).length /\
    ∀ s : RngState,
      ((randomChoice (notes.take (notes.length / 2)) s).1).isSome = true := by
  have h5 := scales_length_ge_five ivs (lookup_mem scales scale ivs hs)
  have h := lower_half_length root scale r ivs hr hs notes hnotes
  refine ⟨h5, h.2, ?_⟩
  intro s
  have hL : (notes.take (notes.length / 2)).length ≠ 0 := by omega
  rw [randomChoice_nonempty _ _ hL]
  rfl

/-- Witness for C10 at root C, scale major. -/
theorem fallback_choice_safe_witness :
    5 <= ([0, 2, 4, 5, 7, 9, 11] : List Nat).length /\
    5 <= (([36, 38, 40, 41, 43, 45, 47, 48, 50, 52, 53, 55, 57, 59] : List Nat).take
      (([36, 38, 40, 41, 43, 45, 47, 48, 50, 52, 53, 55, 57, 59] : List Nat).length / 2)).length /\
    ∀ s : RngState,
      ((randomChoice (([36, 38, 40, 41, 43, 45, 47, 48, 50, 52, 53, 55, 57, 59] : List Nat).take
        (([36, 38, 40, 41, 43, 45, 47, 48, 50, 52, 53, 55, 57, 59] : List Nat).length / 2)) s).1).isSome = true :=
  fallback_choice_safe "C" "major" 36 [0, 2, 4, 5, 7, 9, 11]
    [36, 38, 40, 41, 43, 45, 47, 48, 50, 52, 53, 55, 57, 59]
    (by decide) (by decide) rfl


/-! ### Claim C3 (corrected): the fixed-template Funk scenario -/

/-- Counterexample to C3 as stated: a concrete run of
`generate_bassline("C","major","Funk", 1, 1.0)` in which the drawn template
is `[1,0,1,0,1,0,1,0,1,0,1,1,0,1,1,0]` (the raw draw 6 selects template
index 6 % 2 = 0) produces 9 NoteEvents, not 10, and produces pitches equal
to 47, which lies in the actual lower half `[36,38,40,41,43,45,47]` of the
two-octave C-major scale but not in the claimed pitch pool `[36,38,40]`. -/
theorem funk_scenario_counterexample :
    Except.map (fun evs => (evs.length, List.map NoteEvent.note evs,
        List.map NoteEvent.position evs))
      (generate_bassline "C" "major" "Funk" 1 1 sixRng).1 =
      Except.ok (9, [47, 47, 47, 47, 47, 47, 47, 47, 47],
        [0, 2, 4, 6, 8, 10, 11, 13, 14]) := by
  rfl

/-- C3 (amended): `generate_bassline("C","major","Funk")` over 1 bar at
density 1.0, whenever the pattern draw selects template 0 — the fixed
template `[1,0,1,0,1,0,1,0,1,0,1,1,0,1,1,0]` — and the float draws are in
the unit interval, yields exactly 9 NoteEvents at positions
`[0,2,4,6,8,10,11,13,14]`, each with pitch drawn from the lower half
`[36,38,40,41,43,45,47]` (the first 7 entries) of the two-octave C-major
scale `[36,38,40,41,43,45,47,48,50,52,53,55,57,59]`. -/
theorem funk_scenario (s : RngState)
    (hfl : ∀ n, s.floatStream n <= 1)
    (hc : s.choiceStream s.choicePos % 2 = 0) :
    ∃ evs s1,
      generate_bassline "C" "major" "Funk" 1 1 s = (Except.ok evs, s1) /\
      evs.length = 9 /\
      List.map NoteEvent.position evs = [0, 2, 4, 6, 8, 10, 11, 13, 14] /\
      ∀ ev ∈ evs, ev.note ∈ ([36, 38, 40, 41, 43, 45, 47] : List Nat) := by
  have hnotes : generate_scale "C" "major" 2 =
      Except.ok [36, 38, 40, 41, 43, 45, 47, 48, 50, 52, 53, 55, 57, 59] := rfl
  have hlow : ([36, 38, 40, 41, 43, 45, 47, 48, 50, 52, 53, 55, 57, 59] :
      List Nat).take
      (([36, 38, 40, 41, 43, 45, 47, 48, 50, 52, 53, 55, 57, 59] :
        List Nat).length / 2) ≠ [] := by decide
  obtain ⟨evsS, s2, heqS, _, _, hmemS, hposS, _⟩ :=
    processSteps_spec [36, 38, 40, 41, 43, 45, 47, 48, 50, 52, 53, 55, 57, 59]
      1 0 hlow [1, 0, 1, 0, 1, 0, 1, 0, 1, 0, 1, 1, 0, 1, 1, 0] 0 (bumpChoice s)
  have hposS2 : List.map NoteEvent.position evsS =
      [0, 2, 4, 6, 8, 10, 11, 13, 14] := by
    rw [hposS rfl hfl]
    decide
  have hlen : evsS.length = 9 := by
    have h := congrArg List.length hposS2
    rw [List.length_map] at h
    simpa using h
  have hne : evsS ≠ [] := by
    intro hcon
    rw [hcon] at hlen
    simp at hlen
  have hlk : List.lookup "Funk" rhythm_patterns =
      some [[1, 0, 1, 0, 1, 0, 1, 0, 1, 0, 1, 1, 0, 1, 1, 0],
        [1, 0, 1, 1, 0, 1, 1, 0, 1, 0, 1, 0, 1, 1, 0, 0]] := rfl
  have hmod : s.choiceStream s.choicePos %
      ([[1, 0, 1, 0, 1, 0, 1, 0, 1, 0, 1, 1, 0, 1, 1, 0],
        [1, 0, 1, 1, 0, 1, 1, 0, 1, 0, 1, 0, 1, 1, 0, 0]] :
        List (List Nat)).length = 0 := hc
  have e1 : randomChoice
      ([[1, 0, 1, 0, 1, 0, 1, 0, 1, 0, 1, 1, 0, 1, 1, 0],
        [1, 0, 1, 1, 0, 1, 1, 0, 1, 0, 1, 0, 1, 1, 0, 0]] : List (List Nat)) s =
      (some [1, 0, 1, 0, 1, 0, 1, 0, 1, 0, 1, 1, 0, 1, 1, 0], bumpChoice s) := by
    rw [randomChoice_nonempty _ s (by decide)]
    simp only [hmod]
    rfl
  have heqB : processBars "Funk"
      [36, 38, 40, 41, 43, 45, 47, 48, 50, 52, 53, 55, 57, 59] 1 1 0 s =
      (Except.ok (evsS ++ []), s2) := by
    simp only [processBars, hlk, e1, heqS]
  rw [List.append_nil] at heqB
  refine ⟨evsS, s2, ?_, hlen, hposS2, ?_⟩
  · simp only [generate_bassline, hnotes, heqB]
    rw [if_neg hne]
  · intro ev hev
    exact (hmemS ev hev).1

/-- Witness for C3 (amended) at the all-zero random source. -/
theorem funk_scenario_witness :
    ∃ evs s1,
      generate_bassline "C" "major" "Funk" 1 1 zeroRng = (Except.ok evs, s1) /\
      evs.length = 9 /\
      List.map NoteEvent.position evs = [0, 2, 4, 6, 8, 10, 11, 13, 14] /\
      ∀ ev ∈ evs, ev.note ∈ ([36, 38, 40, 41, 43, 45, 47] : List Nat) :=
  funk_scenario zeroRng (fun n => by norm_num [zeroRng]) (by decide)


/-! ### Claim C9: the dice-roll parameter sampler -/

lemma roundHalfEven_bounds (x : Rat) (a b : Int)
    (hlo : (a : Rat) <= x) (hhi : x <= (b : Rat)) :
    a <= roundHalfEven x /\ roundHalfEven x <= b := by
  have hfl : a <= ⌊x⌋ := Int.le_floor.mpr hlo
  have hfu : ⌊x⌋ <= b := by
    have h := Int.floor_le_floor hhi
    rwa [Int.floor_intCast] at h
  unfold roundHalfEven
  by_cases h1 : x - ⌊x⌋ < 1 / 2
  · rw [if_pos h1]
    exact ⟨hfl, hfu⟩
  · rw [if_neg h1]
    have hx2 : (1 : Rat) / 2 <= x - ⌊x⌋ := not_lt.mp h1
    have hne : ⌊x⌋ < b := by
      rcases lt_or_eq_of_le hfu with h | h
      · exact h
      · exfalso
        have hxb : x - (b : Rat) <= 0 := by linarith
        rw [← h] at hxb
        linarith
    by_cases h2 : x - ⌊x⌋ > 1 / 2
    · rw [if_pos h2]
      exact ⟨by omega, by omega⟩
    · rw [if_neg h2]
      by_cases h3 : ⌊x⌋ % 2 = 0
      · rw [if_pos h3]
        exact ⟨hfl, hfu⟩
      · rw [if_neg h3]
        exact ⟨by omega, by omega⟩

lemma round2_bounds (q : Rat) (hlo : 3 / 10 <= q) (hhi : q <= 1) :
    3 / 10 <= round2 q /\ round2 q <= 1 /\ (round2 q * 100).den = 1 := by
  have h := roundHalfEven_bounds (q * 100) 30 100
    (by push_cast; linarith) (by push_cast; linarith)
  unfold round2
  refine ⟨?_, ?_, ?_⟩
  · have h30 : (30 : Rat) <= (roundHalfEven (q * 100) : Rat) := by
      exact_mod_cast h.1
    linarith
  · have h100 : ((roundHalfEven (q * 100) : Rat)) <= 100 := by
      exact_mod_cast h.2
    linarith
  · rw [div_mul_cancel₀]
    · exact Rat.den_intCast _
    · norm_num

/-- C9: the dice-roll sampler always succeeds and returns a parameter set
whose root note, scale type and genre come from the respective key sets,
whose tempo is an integer in `[60, 180]`, whose bar count is exactly 8, and
whose note density is a two-decimal rounding of a uniform `[0.3, 1.0]` draw,
hence lies in `[0.3, 1.0]` and has an exact two-decimal representation. -/
theorem roll_parameters_spec (s : RngState)
    (hfl0 : ∀ n, 0 <= s.floatStream n) (hfl1 : ∀ n, s.floatStream n < 1) :
    ∃ p s5, roll_parameters s = (Except.ok p, s5) /\
      p.root_note ∈ root_notes.map Prod.fst /\
      p.scale_type ∈ get_available_scales /\
      p.genre ∈ get_available_genres /\
      60 <= p.tempo /\ p.tempo <= 180 /\
      p.bars = 8 /\
      3 / 10 <= p.note_density /\ p.note_density <= 1 /\
      (p.note_density * 100).den = 1 := by
  rcases h1 : randomChoice (root_notes.map Prod.fst) s with ⟨o1, s1⟩
  cases o1 with
  | none =>
    exfalso
    rw [randomChoice_nonempty _ _ (by decide)] at h1
    exact Option.noConfusion (congrArg Prod.fst h1)
  | some rn =>
  obtain ⟨hrn, hs1⟩ := randomChoice_some_mem h1
  rcases h2 : randomChoice get_available_scales s1 with ⟨o2, s2⟩
  cases o2 with
  | none =>
    exfalso
    rw [randomChoice_nonempty _ _ (by decide)] at h2
    exact Option.noConfusion (congrArg Prod.fst h2)
  | some st =>
  obtain ⟨hst, hs2⟩ := randomChoice_some_mem h2
  rcases h3 : randomChoice get_available_genres s2 with ⟨o3, s3⟩
  cases o3 with
  | none =>
    exfalso
    rw [randomChoice_nonempty _ _ (by decide)] at h3
    exact Option.noConfusion (congrArg Prod.fst h3)
  | some g =>
  obtain ⟨hg, hs3⟩ := randomChoice_some_mem h3
  refine ⟨GenerationParameters.mk rn st g
      (60 + s3.choiceStream s3.choicePos % (180 - 60 + 1)) 8
      (round2 (0.3 + (1.0 - 0.3) *
        (bumpChoice s3).floatStream (bumpChoice s3).floatPos)),
    bumpFloat (bumpChoice s3), ?_, hrn, hst, hg, ?_, ?_, rfl, ?_, ?_, ?_⟩
  · simp only [roll_parameters, h1, h2, h3, randint, uniform, randomFloat]
  · show 60 <= 60 + s3.choiceStream s3.choicePos % (180 - 60 + 1)
    omega
  · show 60 + s3.choiceStream s3.choicePos % (180 - 60 + 1) <= 180
    omega
  all_goals {
    have hfs : (bumpChoice s3).floatStream = s.floatStream := by
      rw [hs3, hs2, hs1]
      rfl
    have hr0 : 0 <= (bumpChoice s3).floatStream (bumpChoice s3).floatPos := by
      rw [hfs]
      exact hfl0 _
    have hr1 : (bumpChoice s3).floatStream (bumpChoice s3).floatPos < 1 := by
      rw [hfs]
      exact hfl1 _
    have hq0 : 3 / 10 <= (0.3 : Rat) + (1.0 - 0.3) *
        (bumpChoice s3).floatStream (bumpChoice s3).floatPos := by
      nlinarith
    have hq1 : (0.3 : Rat) + (1.0 - 0.3) *
        (bumpChoice s3).floatStream (bumpChoice s3).floatPos <= 1 := by
      nlinarith
    have hb := round2_bounds _ hq0 hq1
    first
      | exact hb.1
      | exact hb.2.1
      | exact hb.2.2
  }

/-- Witness for C9 at the half-float random source. -/
theorem roll_parameters_spec_witness :
    ∃ p s5, roll_parameters halfRng = (Except.ok p, s5) /\
      p.root_note ∈ root_notes.map Prod.fst /\
      p.scale_type ∈ get_available_scales /\
      p.genre ∈ get_available_genres /\
      60 <= p.tempo /\ p.tempo <= 180 /\
      p.bars = 8 /\
      3 / 10 <= p.note_density /\ p.note_density <= 1 /\
      (p.note_density * 100).den = 1 :=
  roll_parameters_spec halfRng (fun n => by norm_num [halfRng])
    (fun n => by norm_num [halfRng])

end MidiBassline
